import Mathlib

/-!
Verification development for the `llm-judge` repository
(`src/judge.py`, `src/logger.py`).

The Python code is shallowly embedded:

* The score extractors of `judge.py` call `re.search` with `re.IGNORECASE`
  on patterns of the single shape
  `LABEL [:\s]* \*? \*? \s* (\d{1,2})` (aggregate patterns) or
  `LABEL [:\s-]* \*? \*? \s* (\d{1,2})` (per-dimension patterns).
  For patterns of this shape Python's leftmost-match backtracking search
  coincides with a deterministic maximal-munch scan, because the character
  classes that may follow each other are pairwise arranged so that giving
  characters back can never enable a later atom (`*` is in no class,
  whitespace and digits are disjoint).  `reSearchCapture` below implements
  that scan: it walks the text left to right and, at the first position
  where one of the candidate literal labels matches case-insensitively and
  the tail scan reaches a digit, captures a one-or-two-digit number.
  Character classes are modelled on ASCII text: `\s` as the six ASCII
  whitespace characters and `\d` as `0`-`9`.

* The Gemini backend is opaque in the source (an external service), so the
  two client functions take the backend as an explicit function from the
  prompt to `Except String String`: `.ok text` is a successful
  `generate_content` call, `.error msg` is a raised exception whose
  `str(e)` is `msg`.

* Python's `str.format` on the evaluation template is modelled by `fmtQA`,
  a scanner that substitutes the `\x7bquestion\x7d` and `\x7banswer\x7d`
  placeholders and copies every other character verbatim.

* The CSV log is modelled at the level the spec declares in scope (the
  record schema, not file mechanics): a file state is `none` when the file
  is absent or empty, `some table` otherwise, where the table is the
  header row followed by the data rows, each row a list of cell strings.
  A missing score is stored as the empty cell, a present score as its
  decimal numeral; `parseNat` reads a cell back.  `datetime.now()` is an
  explicit timestamp argument and the float `temperature` an opaque string.
-/

/-- Python `IGNORECASE` comparison, modelled by lower-casing both sides. -/
def lc (c : Char) : Char := c.toLower

/-- Python regex class `\s` restricted to ASCII:
space, tab, newline, vertical tab, form feed, carriage return. -/
def pySpace (c : Char) : Bool :=
  (c == ' ') || (c == '\t') || (c == '\n') || (c == '\x0b') || (c == '\x0c') || (c == '\r')

/-- Python regex class `\d` restricted to ASCII digits. -/
def pyDigit (c : Char) : Bool := ('0' ≤ c) && (c ≤ '9')

/-- Numeric value of an ASCII digit character. -/
def digitVal (c : Char) : Nat := c.toNat - 48

/-- The class `[:\s]` used by the aggregate patterns of `extract_rating`. -/
def ratingSep (c : Char) : Bool := (c == ':') || pySpace c

/-- The class `[:\s-]` used by the per-dimension patterns. -/
def dimSep (c : Char) : Bool := (c == ':') || pySpace c || (c == '-')

/-- One `\*?` atom: consume a literal star if present. -/
def dropStar : List Char → List Char
  | '*' :: rest => rest
  | l => l

/-- The tail `[cls]* \*? \*? \s* (\d{1,2})` of every extraction pattern,
scanned maximal-munch after the label: returns the captured number
(`int(match.group(1))`) or `none` when the pattern does not match here. -/
def tailMatch (sep : Char → Bool) (s : List Char) : Option Nat :=
  let s3 := (dropStar (dropStar (s.dropWhile sep))).dropWhile pySpace
  match s3 with
  | [] => none
  | [c1] => if pyDigit c1 then some (digitVal c1) else none
  | c1 :: c2 :: _ =>
      if pyDigit c1 then
        some (if pyDigit c2 then 10 * digitVal c1 + digitVal c2 else digitVal c1)
      else none

/-- Case-insensitive literal prefix test (the label part of a pattern). -/
def ciPrefix : List Char → List Char → Bool
  | [], _ => true
  | _ :: _, [] => false
  | p :: ps, c :: cs => (lc p == lc c) && ciPrefix ps cs

/-- Try, at one fixed position, each candidate label in order (a list of
labels models a regex alternative such as `Creativity(?:/Innovation)?`,
group-present branch first), followed by the capture tail. -/
def matchAtPos (labels : List (List Char)) (sep : Char → Bool) (s : List Char) : Option Nat :=
  labels.findSome? fun L => if ciPrefix L s then tailMatch sep (s.drop L.length) else none

/-- `re.search(pattern, text, re.IGNORECASE)` followed by
`int(match.group(1))` for the pattern shapes above: scan positions left to
right, return the capture of the leftmost full match. -/
def reSearchCapture (labels : List (List Char)) (sep : Char → Bool) : List Char → Option Nat
  | [] => none
  | c :: rest =>
      match matchAtPos labels sep (c :: rest) with
      | some n => some n
      | none => reSearchCapture labels sep rest

/-- The range guard `if 1 <= score <= 10: return score` shared by the
extractors; out of range means fall through (for the per-dimension
extractors that is `return None`). -/
def rangeCheck (o : Option Nat) : Option Nat :=
  match o with
  | some n => if 1 ≤ n ∧ n ≤ 10 then some n else none
  | none => none

/-- The aggregate pattern loop of `extract_rating`: for each pattern in
order, search; on a match return the capture when it is in range 1..10,
otherwise move to the next pattern. -/
def ratingFromPatterns (patterns : List (List Char)) (text : List Char) : Option Nat :=
  match patterns with
  | [] => none
  | L :: Ls =>
      match reSearchCapture [L] ratingSep text with
      | some n => if 1 ≤ n ∧ n ≤ 10 then some n else ratingFromPatterns Ls text
      | none => ratingFromPatterns Ls text

/-- The synonym list of `extract_rating`, in source order:
`Total Score`, `Total Rating`, `Rating`, `Score`. -/
def ratingLabels : List (List Char) :=
  [("Total Score").data, ("Total Rating").data, ("Rating").data, ("Score").data]

/-- `judge.extract_rating`. -/
def extract_rating (text : String) : Option Nat :=
  ratingFromPatterns ratingLabels text.data

/-- `judge.extract_relevance_score`. -/
def extract_relevance_score (text : String) : Option Nat :=
  rangeCheck (reSearchCapture [("Relevance Score").data] dimSep text.data)

/-- `judge.extract_clarity_score`. -/
def extract_clarity_score (text : String) : Option Nat :=
  rangeCheck (reSearchCapture [("Clarity Score").data] dimSep text.data)

/-- `judge.extract_consistency_score`. -/
def extract_consistency_score (text : String) : Option Nat :=
  rangeCheck (reSearchCapture [("Consistency Score").data] dimSep text.data)

/-- `judge.extract_creativity_score`; the optional group
`(?:/Innovation)?` gives two label alternatives at each position,
group-present first. -/
def extract_creativity_score (text : String) : Option Nat :=
  rangeCheck
    (reSearchCapture [("Creativity/Innovation Score").data, ("Creativity Score").data]
      dimSep text.data)

/-- Case-insensitive occurrence of a literal label anywhere in the text
(`re.search` of the bare label with `IGNORECASE` would succeed). -/
def ciFindLabel (L : List Char) : List Char → Bool
  | [] => ciPrefix L []
  | c :: rest => ciPrefix L (c :: rest) || ciFindLabel L rest

/-- String-level wrapper for `ciFindLabel`. -/
def ciOccurs (pat text : String) : Bool := ciFindLabel pat.data text.data

/-- The part of `EVALUATION_PROMPT` before the `question` placeholder. -/
def PROMPT_PRE : String :=
  "You are an expert evaluator assessing the quality of AI-generated answers.\n\n**Context/Question:**\n---\n"

/-- The part of `EVALUATION_PROMPT` between the two placeholders. -/
def PROMPT_MID : String := "\n---\n\n**Answer:**\n---\n"

/-- Block 1 of the template tail (kept in blocks small enough for the
proofs that the tail is brace-free to evaluate). -/
def PROMPT_SUF1 : String :=
  "\n---\n\nPlease evaluate the answer based on the following criteria on a scale of 1 to 10:\n\n"

/-- Block 2 of the template tail. -/
def PROMPT_SUF2 : String :=
  "1.  **Relevance**: How relevant is the response to the given input and context?\n    - 1: Completely irrelevant.\n    - 5: Partially relevant, but misses key aspects of the question.\n    - 10: Perfectly relevant and directly addresses all parts of the question.\n\n"

/-- Block 3 of the template tail. -/
def PROMPT_SUF3 : String :=
  "2.  **Clarity**: How clear and understandable is the generated output?\n    - 1: Incoherent and impossible to understand.\n    - 5: Understandable, but requires effort to follow due to poor structure or jargon.\n    - 10: Perfectly clear, concise, and easy to understand.\n    \n"

/-- Block 4 of the template tail. -/
def PROMPT_SUF4 : String :=
  "3.  **Consistency**: How consistent are the results across multiple runs?\n    - 1: Highly inconsistent and contradictory.\n    - 5: Generally consistent, but with some contradictions.\n    - 10: Perfectly consistent and reliable.\n    \n"

/-- Block 5 of the template tail. -/
def PROMPT_SUF5 : String :=
  "4.  **Creativity/Innovation**: For creative tasks, how original or innovative is the output?\n    - 1: Plagiarized or completely unoriginal.\n    - 5: Some originality, but mostly derivative.\n    - 10: Highly original and innovative.\n\nProvide your evaluation in the following format:\n\n"

/-- Block 6 of the template tail. -/
def PROMPT_SUF6 : String :=
  "**Relevance:** [Your detailed feedback on relevance]\n**Relevance Score:** [A number from 1 to 10]\n\n**Clarity:** [Your detailed feedback on clarity]\n**Clarity Score:** [A number from 1 to 10]\n\n"

/-- Block 7 of the template tail. -/
def PROMPT_SUF7 : String :=
  "**Consistency:** [Your detailed feedback on consistency]\n**Consistency Score:** [A number from 1 to 10]\n\n**Creativity/Innovation:** [Your detailed feedback on creativity]\n**Creativity Score:** [A number from 1 to 10]\n\n**Total Score:** [The average of all scores, from 1 to 10]\n"

/-- The part of `EVALUATION_PROMPT` after the `answer` placeholder. -/
def PROMPT_SUF : String :=
  PROMPT_SUF1 ++ PROMPT_SUF2 ++ PROMPT_SUF3 ++ PROMPT_SUF4 ++ PROMPT_SUF5 ++
    PROMPT_SUF6 ++ PROMPT_SUF7

/-- `judge.EVALUATION_PROMPT`, the rubric template with its two
`str.format` placeholders. -/
def EVALUATION_PROMPT : String :=
  PROMPT_PRE ++ "\x7bquestion\x7d" ++ PROMPT_MID ++ "\x7banswer\x7d" ++ PROMPT_SUF

/-- The `\x7bquestion\x7d` placeholder as a character list. -/
def qPlaceholder : List Char :=
  ['\x7b', 'q', 'u', 'e', 's', 't', 'i', 'o', 'n', '\x7d']

/-- The `\x7banswer\x7d` placeholder as a character list. -/
def aPlaceholder : List Char :=
  ['\x7b', 'a', 'n', 's', 'w', 'e', 'r', '\x7d']

/-- Exact (case-sensitive) literal prefix test, used by the format
scanner to recognise a placeholder. -/
def eqPrefix : List Char → List Char → Bool
  | [], _ => true
  | _ :: _, [] => false
  | p :: ps, c :: cs => (p == c) && eqPrefix ps cs

/-- Python `str.format` specialised to the two named fields of the
template: substitute each placeholder occurrence, copy everything else
verbatim (the template contains no other brace). -/
def fmtQA (q a : String) : List Char → List Char
  | [] => []
  | c :: rest =>
      if eqPrefix qPlaceholder (c :: rest) then
        q.data ++ fmtQA q a ((c :: rest).drop 10)
      else if eqPrefix aPlaceholder (c :: rest) then
        a.data ++ fmtQA q a ((c :: rest).drop 8)
      else
        c :: fmtQA q a rest
termination_by l => l.length
decreasing_by
  all_goals simp [List.length_drop]
  all_goals omega

/-- `EVALUATION_PROMPT.format(question=question, answer=answer)`, the
prompt construction of `evaluate_with_gemini` (the spec's
`build_prompt`). -/
def build_prompt (question answer : String) : String :=
  String.mk (fmtQA question answer EVALUATION_PROMPT.data)

/-- The scores dictionary built by `evaluate_with_gemini`: one optional
integer per rubric field. -/
structure Scores where
  total : Option Nat
  relevance : Option Nat
  clarity : Option Nat
  consistency : Option Nat
  creativity : Option Nat
deriving Repr, DecidableEq

/-- `judge.evaluate_with_gemini`.  The Gemini call is an external opaque
service, passed in as `backend`: `.ok text` models a successful
`generate_content` with response text, `.error e` models any raised
exception with message `str(e) = e`.  The `try` block builds the prompt
and calls the backend; the `except` branch returns the synthetic
feedback, an all-`None` scores dictionary and the rebuilt prompt. -/
def evaluate_with_gemini (backend : String → Except String String)
    (question answer : String) : String × Scores × String :=
  let prompt := build_prompt question answer
  match backend prompt with
  | .ok feedback_text =>
      (feedback_text,
        { total := extract_rating feedback_text,
          relevance := extract_relevance_score feedback_text,
          clarity := extract_clarity_score feedback_text,
          consistency := extract_consistency_score feedback_text,
          creativity := extract_creativity_score feedback_text },
        prompt)
  | .error e =>
      ("Error during evaluation: " ++ e,
        { total := none, relevance := none, clarity := none,
          consistency := none, creativity := none },
        prompt)

/-- `judge.generate_with_llm` with the same opaque `backend`: the
`gemini` provider calls the backend (exceptions become
`Error during generation: ...`); every other provider returns the
unsupported-provider error string without calling anything. -/
def generate_with_llm (backend : String → Except String String)
    (prompt provider : String) : String :=
  if provider = "gemini" then
    match backend prompt with
    | .ok t => t
    | .error e => "Error during generation: " ++ e
  else
    "Error: Unsupported provider \x27" ++ provider ++ "\x27"

/-- `logger.CSV_HEADER`. -/
def CSV_HEADER : List String :=
  ["timestamp", "model", "temperature", "question", "answer", "judge_feedback",
   "judge_prompt", "total_rating(1-10)", "validation_status", "relevance_score",
   "clarity_score", "consistency_score", "creativity_score"]

/-- One evaluation record, the arguments of `logger.log_evaluation`
together with the timestamp the function stamps on the row
(`datetime.now()` is modelled as an explicit clock input; the float
`temperature` is kept as the opaque text it is rendered to). -/
structure EvalRecord where
  timestamp : String
  model : String
  temperature : String
  question : String
  answer : String
  judge_feedback : String
  judge_prompt : String
  total_rating : Option Nat
  validation_status : String
  relevance_score : Option Nat
  clarity_score : Option Nat
  consistency_score : Option Nat
  creativity_score : Option Nat
deriving Repr, DecidableEq

/-- Little-endian decimal digits of a natural number (empty for 0). -/
def natDigitsRev (n : Nat) : List Char :=
  if h : n = 0 then []
  else Nat.digitChar (n % 10) :: natDigitsRev (n / 10)
termination_by n
decreasing_by
  exact Nat.div_lt_self (Nat.pos_of_ne_zero h) (by norm_num)

/-- Python `str(n)` for a natural number. -/
def encNat (n : Nat) : String :=
  if n = 0 then "0" else String.mk (natDigitsRev n).reverse

/-- Serialisation of one optional score into its CSV cell: a missing
score is the explicit empty "missing" cell, a present score its decimal
numeral. -/
def encCell : Option Nat → String
  | none => ""
  | some n => encNat n

/-- One step of decimal parsing. -/
def foldDigit (acc : Nat) (c : Char) : Nat := 10 * acc + digitVal c

/-- Parse a cell back: the empty cell is a missing score, a digit string
its numeric value, anything else missing. -/
def parseNat (l : List Char) : Option Nat :=
  match l with
  | [] => none
  | _ :: _ =>
      if l.all pyDigit then
        some (l.foldl foldDigit 0)
      else none

/-- String-level wrapper for `parseNat`. -/
def parseCell (s : String) : Option Nat := parseNat s.data

/-- The row `log_evaluation` appends, in the fixed `CSV_HEADER` column
order. -/
def encodeRecord (r : EvalRecord) : List String :=
  [r.timestamp, r.model, r.temperature, r.question, r.answer, r.judge_feedback,
   r.judge_prompt, encCell r.total_rating, r.validation_status,
   encCell r.relevance_score, encCell r.clarity_score,
   encCell r.consistency_score, encCell r.creativity_score]

/-- Read one row back into a record. -/
def decodeRecord : List String → Option EvalRecord
  | [ts, mo, te, qu, an, fb, pr, tot, vs, rel, cl, co, cr] =>
      some { timestamp := ts, model := mo, temperature := te, question := qu,
             answer := an, judge_feedback := fb, judge_prompt := pr,
             total_rating := parseCell tot, validation_status := vs,
             relevance_score := parseCell rel, clarity_score := parseCell cl,
             consistency_score := parseCell co, creativity_score := parseCell cr }
  | _ => none

/-- State of `evaluations.csv`: `none` when the file is absent or empty
(`not csv_path.exists() or st_size == 0`), otherwise the full table,
header row first. -/
abbrev CsvFile := Option (List (List String))

/-- `logger.log_evaluation` as a state transformer on the file: read the
whole table (or start one with the canonical header), append the one
derived row, write the whole table back. -/
def log_evaluation (r : EvalRecord) (file : CsvFile) : List (List String) :=
  match file with
  | some (header :: rows) => header :: (rows ++ [encodeRecord r])
  | some [] => CSV_HEADER :: [encodeRecord r]
  | none => CSV_HEADER :: [encodeRecord r]

/-- `logger.get_evaluation_history`: the whole table when the file has
content, otherwise an empty table that still carries `CSV_HEADER`.
Returned as (column header, data rows). -/
def get_evaluation_history (file : CsvFile) : List String × List (List String) :=
  match file with
  | some (header :: rows) => (header, rows)
  | some [] => (CSV_HEADER, [])
  | none => (CSV_HEADER, [])

/-- Run `log_evaluation` for each record in turn, earliest first. -/
def appendAll (rs : List EvalRecord) (file : CsvFile) : CsvFile :=
  rs.foldl (fun st r => some (log_evaluation r st)) file

/-- C2: if the backend call raises any exception, `evaluate_with_gemini`
does not propagate it: it returns the feedback string
`Error during evaluation: ` followed by the exception message, a score
structure with all five fields absent, and the prompt that would have
been sent. -/
theorem evaluate_with_gemini_error_path
    (backend : String → Except String String) (question answer e : String)
    (h : backend (build_prompt question answer) = Except.error e) :
    evaluate_with_gemini backend question answer =
      ("Error during evaluation: " ++ e,
        { total := none, relevance := none, clarity := none,
          consistency := none, creativity := none },
        build_prompt question answer) := by
  simp [evaluate_with_gemini, h]

/-- Witness for C2 at a concrete failing backend. -/
theorem evaluate_with_gemini_error_path_witness :
    evaluate_with_gemini (fun _ => Except.error "quota exceeded") "q1" "a1" =
      ("Error during evaluation: " ++ "quota exceeded",
        { total := none, relevance := none, clarity := none,
          consistency := none, creativity := none },
        build_prompt "q1" "a1") :=
  evaluate_with_gemini_error_path (fun _ => Except.error "quota exceeded") "q1" "a1"
    "quota exceeded" rfl

/-- C5: dimension extraction tolerates markdown emphasis, minor spacing
and letter case around the label: `**Relevance Score:** 9` and
`Relevance Score: 9` both extract to 9, and `relevance score - 6`
extracts to 6. -/
theorem extract_relevance_tolerance :
    extract_relevance_score "**Relevance Score:** 9" = some 9 ∧
    extract_relevance_score "Relevance Score: 9" = some 9 ∧
    extract_relevance_score "relevance score - 6" = some 6 :=
  ⟨rfl, rfl, rfl⟩

/-- C6: for every provider other than `gemini`, `generate_with_llm`
returns the unsupported-provider error string with the provider
interpolated, and does not raise (it is a total function that never
calls the backend in that case). -/
theorem generate_with_llm_unsupported_provider
    (backend : String → Except String String) (prompt provider : String)
    (h : provider ≠ "gemini") :
    generate_with_llm backend prompt provider =
      "Error: Unsupported provider \x27" ++ provider ++ "\x27" := by
  simp [generate_with_llm, h]

/-- Witness for C6 at the concrete provider `openai`. -/
theorem generate_with_llm_unsupported_provider_witness :
    generate_with_llm (fun _ => Except.ok "text") "some prompt" "openai" =
      "Error: Unsupported provider \x27" ++ "openai" ++ "\x27" :=
  generate_with_llm_unsupported_provider (fun _ => Except.ok "text") "some prompt"
    "openai" (by decide)

/-- C8: with no records (file absent or empty) the history is empty but
carries the full fixed column header, and the first append creates the
table with that canonical header, in its fixed order, above the one
encoded row. -/
theorem history_header_and_first_append (r : EvalRecord) :
    get_evaluation_history none = (CSV_HEADER, []) ∧
    CSV_HEADER =
      ["timestamp", "model", "temperature", "question", "answer", "judge_feedback",
       "judge_prompt", "total_rating(1-10)", "validation_status", "relevance_score",
       "clarity_score", "consistency_score", "creativity_score"] ∧
    log_evaluation r none = CSV_HEADER :: [encodeRecord r] ∧
    get_evaluation_history (some (log_evaluation r none)) = (CSV_HEADER, [encodeRecord r]) :=
  ⟨rfl, rfl, rfl, rfl⟩

/-- A capture accepted by the range guard lies in 1..10. -/
theorem rangeCheck_bound (o : Option Nat) (n : Nat) (h : rangeCheck o = some n) :
    1 ≤ n ∧ n ≤ 10 := by
  cases o with
  | none => simp [rangeCheck] at h
  | some m =>
      by_cases hr : 1 ≤ m ∧ m ≤ 10
      · simp [rangeCheck, hr] at h
        exact h ▸ hr
      · simp [rangeCheck, hr] at h

/-- Any value returned by the aggregate pattern loop lies in 1..10. -/
theorem ratingFromPatterns_bound (ps : List (List Char)) (text : List Char) (n : Nat)
    (h : ratingFromPatterns ps text = some n) : 1 ≤ n ∧ n ≤ 10 := by
  induction ps with
  | nil => simp [ratingFromPatterns] at h
  | cons L Ls ih =>
      cases hs : reSearchCapture [L] ratingSep text with
      | none =>
          rw [ratingFromPatterns, hs] at h
          exact ih h
      | some m =>
          rw [ratingFromPatterns, hs] at h
          by_cases hr : 1 ≤ m ∧ m ≤ 10
          · simp [hr] at h
            exact h ▸ hr
          · simp [hr] at h
            exact ih h

/-- C3 (amended): every present extracted score — per-dimension or
aggregate — lies in the valid range 1..10 (never clamped, never returned
out of range; the extractors are total functions, so nothing is raised);
for the per-dimension extractors an out-of-range capture makes the field
absent.  (For the aggregate, an out-of-range capture instead falls
through to the remaining synonyms; see the fall-through theorem.) -/
theorem range_policy :
    (∀ (text : String) (n : Nat), extract_rating text = some n → 1 ≤ n ∧ n ≤ 10) ∧
    (∀ (text : String) (n : Nat), extract_relevance_score text = some n → 1 ≤ n ∧ n ≤ 10) ∧
    (∀ (text : String) (n : Nat), extract_clarity_score text = some n → 1 ≤ n ∧ n ≤ 10) ∧
    (∀ (text : String) (n : Nat), extract_consistency_score text = some n → 1 ≤ n ∧ n ≤ 10) ∧
    (∀ (text : String) (n : Nat), extract_creativity_score text = some n → 1 ≤ n ∧ n ≤ 10) ∧
    (∀ (text : String) (n : Nat),
      reSearchCapture [("Relevance Score").data] dimSep text.data = some n →
      ¬(1 ≤ n ∧ n ≤ 10) → extract_relevance_score text = none) ∧
    (∀ (text : String) (n : Nat),
      reSearchCapture [("Clarity Score").data] dimSep text.data = some n →
      ¬(1 ≤ n ∧ n ≤ 10) → extract_clarity_score text = none) ∧
    (∀ (text : String) (n : Nat),
      reSearchCapture [("Consistency Score").data] dimSep text.data = some n →
      ¬(1 ≤ n ∧ n ≤ 10) → extract_consistency_score text = none) ∧
    (∀ (text : String) (n : Nat),
      reSearchCapture [("Creativity/Innovation Score").data, ("Creativity Score").data]
          dimSep text.data = some n →
      ¬(1 ≤ n ∧ n ≤ 10) → extract_creativity_score text = none) := by
  refine ⟨fun text n h => ratingFromPatterns_bound ratingLabels text.data n h,
    fun text n h => rangeCheck_bound _ n h,
    fun text n h => rangeCheck_bound _ n h,
    fun text n h => rangeCheck_bound _ n h,
    fun text n h => rangeCheck_bound _ n h,
    ?_, ?_, ?_, ?_⟩ <;>
  · intro text n h hn
    simp [extract_relevance_score, extract_clarity_score, extract_consistency_score,
      extract_creativity_score, h, rangeCheck, hn]

/-- Witness for C3 (amended): an in-range aggregate capture is returned
and bounded; an out-of-range relevance capture is reported absent. -/
theorem range_policy_witness :
    (1 ≤ 4 ∧ 4 ≤ 10) ∧ extract_relevance_score "Relevance Score: 12" = none :=
  ⟨range_policy.1 "**Total Rating:** 4" 4 rfl,
    range_policy.2.2.2.2.2.1 "Relevance Score: 12" 12 rfl (by decide)⟩

/-- Counterexample for C3 as stated: on
`Total Score: 50 Rating: 6` the number captured for the aggregate label
`Total Score` is 50, outside 1..10, yet `extract_rating` does not report
the field absent — it returns 6 from a lower-priority synonym. -/
theorem range_policy_cex :
    reSearchCapture [("Total Score").data] ratingSep
        ("Total Score: 50 Rating: 6").data = some 50 ∧
    ¬(1 ≤ 50 ∧ 50 ≤ 10) ∧
    extract_rating "Total Score: 50 Rating: 6" = some 6 :=
  ⟨rfl, by decide, rfl⟩

/-- C1 (amended): `extract_rating` tries the synonyms
`Total Score`, `Total Rating`, `Rating`, `Score` in that order,
case-insensitively, and returns the value of the first synonym whose
leftmost match captures an in-range number; in particular, whenever the
leftmost `Total Score` match of the text captures an in-range value
(e.g. `Total Score: 8 Rating: 3`, whose only `Total Score` match
captures 8), that value is returned regardless of any `Rating` label. -/
theorem extract_rating_priority :
    (∀ (text : String) (n : Nat),
      reSearchCapture [("Total Score").data] ratingSep text.data = some n →
      1 ≤ n → n ≤ 10 → extract_rating text = some n) ∧
    extract_rating "Total Score: 8 Rating: 3" = some 8 := by
  refine ⟨?_, rfl⟩
  intro text n h h1 h2
  rw [extract_rating, ratingLabels, ratingFromPatterns, h]
  simp [h1, h2]

/-- Witness for C1 (amended) at a concrete text holding both labels. -/
theorem extract_rating_priority_witness :
    extract_rating "Total Score: 8 and also Rating: 5" = some 8 :=
  extract_rating_priority.1 "Total Score: 8 and also Rating: 5" 8 rfl
    (by decide) (by decide)

/-- Counterexample for C1 as stated: the text
`Total Score: 11. Total Score: 8 Rating: 3` contains both
`Total Score: 8` and `Rating: 3`, yet `extract_rating` returns 3, not 8
(the leftmost `Total Score` match captures the out-of-range 11, so the
synonym falls through and `Rating` wins). -/
theorem extract_rating_priority_cex :
    extract_rating "Total Score: 11. Total Score: 8 Rating: 3" = some 3 ∧
    ("Total Score: 8").data <:+: ("Total Score: 11. Total Score: 8 Rating: 3").data ∧
    ("Rating: 3").data <:+: ("Total Score: 11. Total Score: 8 Rating: 3").data :=
  ⟨rfl, by decide, by decide⟩

/-- C10: an out-of-range capture under a higher-priority synonym does not
make the aggregate absent — extraction falls through to the remaining
synonyms; concretely `Total Score: 99 Rating: 6` yields 6, and because
the lowest-priority synonym `Score` matches inside any label ending in
`Score`, a text containing only `Relevance Score: 9` yields aggregate
9. -/
theorem extract_rating_fallthrough :
    (∀ (text : String) (n : Nat),
      reSearchCapture [("Total Score").data] ratingSep text.data = some n →
      ¬(1 ≤ n ∧ n ≤ 10) →
      extract_rating text =
        ratingFromPatterns [("Total Rating").data, ("Rating").data, ("Score").data]
          text.data) ∧
    extract_rating "Total Score: 99 Rating: 6" = some 6 ∧
    extract_rating "Relevance Score: 9" = some 9 := by
  refine ⟨?_, rfl, rfl⟩
  intro text n h hn
  rw [extract_rating, ratingLabels, ratingFromPatterns, h]
  simp [hn]

/-- Witness for C10 at the concrete out-of-range text. -/
theorem extract_rating_fallthrough_witness :
    extract_rating "Total Score: 99 Rating: 6" =
      ratingFromPatterns [("Total Rating").data, ("Rating").data, ("Score").data]
        ("Total Score: 99 Rating: 6").data :=
  extract_rating_fallthrough.1 "Total Score: 99 Rating: 6" 99 rfl (by decide)

/-- A position-level match presupposes one of the labels occurring
case-insensitively at that position. -/
theorem matchAtPos_finds (labels : List (List Char)) (sep : Char → Bool) (s : List Char)
    (n : Nat) (h : matchAtPos labels sep s = some n) :
    ∃ L ∈ labels, ciPrefix L s = true := by
  induction labels with
  | nil => simp [matchAtPos, List.findSome?] at h
  | cons L Ls ih =>
      by_cases hp : ciPrefix L s = true
      · exact ⟨L, List.mem_cons_self L Ls, hp⟩
      · rw [matchAtPos, List.findSome?_cons] at h
        rw [if_neg hp] at h
        simp only [] at h
        obtain ⟨L2, hm2, hp2⟩ := ih (by rw [matchAtPos]; exact h)
        exact ⟨L2, List.mem_cons_of_mem L hm2, hp2⟩

/-- A successful search presupposes one of the labels occurring
case-insensitively somewhere in the text. -/
theorem reSearch_finds (labels : List (List Char)) (sep : Char → Bool) (text : List Char)
    (n : Nat) (h : reSearchCapture labels sep text = some n) :
    ∃ L ∈ labels, ciFindLabel L text = true := by
  induction text with
  | nil => simp [reSearchCapture] at h
  | cons c rest ih =>
      rw [reSearchCapture] at h
      cases hm : matchAtPos labels sep (c :: rest) with
      | some m =>
          obtain ⟨L, hmem, hp⟩ := matchAtPos_finds labels sep (c :: rest) m hm
          exact ⟨L, hmem, by rw [ciFindLabel]; simp [hp]⟩
      | none =>
          rw [hm] at h
          simp only [] at h
          obtain ⟨L, hmem, hp⟩ := ih h
          exact ⟨L, hmem, by rw [ciFindLabel]; simp [hp]⟩

/-- A single-label extractor whose label never occurs (case-insensitively)
in the text yields `none`. -/
theorem singleLabel_none (L : List Char) (text : String)
    (hno : ciFindLabel L text.data = false) :
    rangeCheck (reSearchCapture [L] dimSep text.data) = none := by
  cases hs : reSearchCapture [L] dimSep text.data with
  | none => simp [rangeCheck]
  | some m =>
      obtain ⟨L2, hmem, hf⟩ := reSearch_finds [L] dimSep text.data m hs
      simp only [List.mem_singleton] at hmem
      subst hmem
      rw [hno] at hf
      simp at hf

/-- C9 (amended): each per-dimension extractor matches only its fixed
label — `Relevance Score`, `Clarity Score`, `Consistency Score`, and for
creativity `Creativity Score` with an optional `/Innovation` infix part
(two spellings) — with no synonym fallback list: a text with no
case-insensitive occurrence of the dimension's label(s) yields absent;
in particular `Clarity Rating: 7` yields absent for clarity. -/
theorem single_label_policy :
    (∀ text : String, ciOccurs "Relevance Score" text = false →
      extract_relevance_score text = none) ∧
    (∀ text : String, ciOccurs "Clarity Score" text = false →
      extract_clarity_score text = none) ∧
    (∀ text : String, ciOccurs "Consistency Score" text = false →
      extract_consistency_score text = none) ∧
    (∀ text : String, ciOccurs "Creativity/Innovation Score" text = false →
      ciOccurs "Creativity Score" text = false →
      extract_creativity_score text = none) ∧
    extract_clarity_score "Clarity Rating: 7" = none := by
  refine ⟨?_, ?_, ?_, ?_, rfl⟩
  · intro text hno
    exact singleLabel_none _ text hno
  · intro text hno
    exact singleLabel_none _ text hno
  · intro text hno
    exact singleLabel_none _ text hno
  · intro text h1 h2
    simp only [ciOccurs] at h1 h2
    cases hs : reSearchCapture [("Creativity/Innovation Score").data, ("Creativity Score").data]
        dimSep text.data with
    | none => simp [extract_creativity_score, hs, rangeCheck]
    | some m =>
        exfalso
        obtain ⟨L, hmem, hf⟩ := reSearch_finds _ dimSep text.data m hs
        simp only [List.mem_cons, List.mem_singleton, List.not_mem_nil, or_false] at hmem
        rcases hmem with hL | hL <;> subst hL
        · rw [h1] at hf
          simp at hf
        · rw [h2] at hf
          simp at hf

/-- Witness for C9 (amended) at concrete label-free texts. -/
theorem single_label_policy_witness :
    extract_relevance_score "no such labels at all" = none ∧
    extract_creativity_score "nothing here" = none :=
  ⟨single_label_policy.1 "no such labels at all" rfl,
    single_label_policy.2.2.2.1 "nothing here" rfl rfl⟩

/-- Counterexample for C9 as stated: `Creativity/Innovation Score: 7`
contains no occurrence of the fixed label `Creativity Score` (even
case-insensitively), yet the creativity extractor returns 7, not
absent — the creativity pattern accepts a second label spelling. -/
theorem single_label_cex :
    extract_creativity_score "Creativity/Innovation Score: 7" = some 7 ∧
    ciOccurs "Creativity Score" "Creativity/Innovation Score: 7" = false :=
  ⟨rfl, rfl⟩

/-- The two placeholder lists are exactly the placeholder substrings of
the template. -/
theorem qPlaceholder_eq : ("\x7bquestion\x7d").data = qPlaceholder := rfl

/-- See `qPlaceholder_eq`. -/
theorem aPlaceholder_eq : ("\x7banswer\x7d").data = aPlaceholder := rfl

/-- The scanner leaves an empty tail unchanged. -/
theorem fmtQA_nil (q a : String) : fmtQA q a [] = [] := by
  simp [fmtQA]

/-- Scanning from a `question` placeholder substitutes the question. -/
theorem fmtQA_q (q a : String) (rest : List Char) :
    fmtQA q a (qPlaceholder ++ rest) = q.data ++ fmtQA q a rest := by
  have hq : eqPrefix qPlaceholder
      ('\x7b' :: 'q' :: 'u' :: 'e' :: 's' :: 't' :: 'i' :: 'o' :: 'n' :: '\x7d' :: rest) = true := rfl
  have hd : List.drop 10
      ('\x7b' :: 'q' :: 'u' :: 'e' :: 's' :: 't' :: 'i' :: 'o' :: 'n' :: '\x7d' :: rest) = rest := rfl
  show fmtQA q a
      ('\x7b' :: 'q' :: 'u' :: 'e' :: 's' :: 't' :: 'i' :: 'o' :: 'n' :: '\x7d' :: rest) = _
  rw [fmtQA, if_pos hq, hd]

/-- Scanning from an `answer` placeholder substitutes the answer. -/
theorem fmtQA_a (q a : String) (rest : List Char) :
    fmtQA q a (aPlaceholder ++ rest) = a.data ++ fmtQA q a rest := by
  have hq : eqPrefix qPlaceholder
      ('\x7b' :: 'a' :: 'n' :: 's' :: 'w' :: 'e' :: 'r' :: '\x7d' :: rest) = false := rfl
  have ha : eqPrefix aPlaceholder
      ('\x7b' :: 'a' :: 'n' :: 's' :: 'w' :: 'e' :: 'r' :: '\x7d' :: rest) = true := rfl
  have hd : List.drop 8
      ('\x7b' :: 'a' :: 'n' :: 's' :: 'w' :: 'e' :: 'r' :: '\x7d' :: rest) = rest := rfl
  show fmtQA q a ('\x7b' :: 'a' :: 'n' :: 's' :: 'w' :: 'e' :: 'r' :: '\x7d' :: rest) = _
  rw [fmtQA, if_neg (by simp [hq]), if_pos ha, hd]

/-- Scanning copies any brace-free block verbatim. -/
theorem fmtQA_copy (q a : String) (l : List Char) :
    ∀ rest : List Char, (∀ c ∈ l, c ≠ '\x7b') → fmtQA q a (l ++ rest) = l ++ fmtQA q a rest := by
  induction l with
  | nil => intro rest _; simp
  | cons c l2 ih =>
      intro rest h
      have hc : ('\x7b' == c) = false :=
        beq_eq_false_iff_ne.mpr fun hb => (h c (by simp)) hb.symm
      have hq : eqPrefix qPlaceholder (c :: (l2 ++ rest)) = false := by
        simp [qPlaceholder, eqPrefix, hc]
      have ha : eqPrefix aPlaceholder (c :: (l2 ++ rest)) = false := by
        simp [aPlaceholder, eqPrefix, hc]
      show fmtQA q a (c :: (l2 ++ rest)) = _
      rw [fmtQA, if_neg (by simp [hq]), if_neg (by simp [ha]),
        ih rest (fun d hd => h d (by simp [hd])), List.cons_append]

/-- The template splits into its brace-free blocks and the two
placeholders. -/
theorem EVALUATION_PROMPT_split :
    EVALUATION_PROMPT.data =
      PROMPT_PRE.data ++ (qPlaceholder ++ (PROMPT_MID.data ++ (aPlaceholder ++ PROMPT_SUF.data))) := by
  simp [EVALUATION_PROMPT, String.data_append, qPlaceholder, aPlaceholder,
    List.append_assoc]

set_option maxRecDepth 16384

/-- C7: prompt construction is pure and deterministic — identical
question/answer arguments yield identical output — and the output is the
fixed rubric template with the question and answer substituted verbatim
for the two placeholders. -/
theorem build_prompt_deterministic_subst (q a : String) :
    build_prompt q a = PROMPT_PRE ++ q ++ PROMPT_MID ++ a ++ PROMPT_SUF ∧
    ∀ q2 a2 : String, q2 = q → a2 = a → build_prompt q2 a2 = build_prompt q a := by
  constructor
  · apply String.ext
    show fmtQA q a EVALUATION_PROMPT.data = _
    rw [EVALUATION_PROMPT_split,
      fmtQA_copy q a PROMPT_PRE.data _ (by decide),
      fmtQA_q,
      fmtQA_copy q a PROMPT_MID.data _ (by decide),
      fmtQA_a]
    have h7 : fmtQA q a PROMPT_SUF7.data = PROMPT_SUF7.data := by
      have h0 := fmtQA_copy q a PROMPT_SUF7.data [] (by decide)
      simpa [fmtQA_nil] using h0
    have hS : fmtQA q a PROMPT_SUF.data = PROMPT_SUF.data := by
      have e : PROMPT_SUF.data =
          PROMPT_SUF1.data ++ (PROMPT_SUF2.data ++ (PROMPT_SUF3.data ++ (PROMPT_SUF4.data ++
            (PROMPT_SUF5.data ++ (PROMPT_SUF6.data ++ PROMPT_SUF7.data))))) := by
        simp [PROMPT_SUF, String.data_append, List.append_assoc]
      rw [e,
        fmtQA_copy q a PROMPT_SUF1.data _ (by decide),
        fmtQA_copy q a PROMPT_SUF2.data _ (by decide),
        fmtQA_copy q a PROMPT_SUF3.data _ (by decide),
        fmtQA_copy q a PROMPT_SUF4.data _ (by decide),
        fmtQA_copy q a PROMPT_SUF5.data _ (by decide),
        fmtQA_copy q a PROMPT_SUF6.data _ (by decide),
        h7]
    rw [hS]
    simp [String.data_append, List.append_assoc]
  · intro q2 a2 h1 h2
    rw [h1, h2]

/-- Witness for C7 at concrete arguments. -/
theorem build_prompt_deterministic_subst_witness :
    build_prompt "What is 2+2?" "4" =
      PROMPT_PRE ++ "What is 2+2?" ++ PROMPT_MID ++ "4" ++ PROMPT_SUF ∧
    build_prompt "What is 2+2?" "4" = build_prompt "What is 2+2?" "4" :=
  ⟨(build_prompt_deterministic_subst "What is 2+2?" "4").1,
    (build_prompt_deterministic_subst "What is 2+2?" "4").2 "What is 2+2?" "4" rfl rfl⟩

/-- `Nat.digitChar` of a decimal digit is an ASCII digit character. -/
theorem pyDigit_digitChar (d : Nat) (hd : d < 10) : pyDigit (Nat.digitChar d) = true := by
  interval_cases d <;> rfl

/-- `digitVal` inverts `Nat.digitChar` on decimal digits. -/
theorem digitVal_digitChar (d : Nat) (hd : d < 10) : digitVal (Nat.digitChar d) = d := by
  interval_cases d <;> rfl

/-- Unfolding `natDigitsRev` at zero. -/
theorem natDigitsRev_zero : natDigitsRev 0 = [] := by
  rw [natDigitsRev]
  simp

/-- Unfolding `natDigitsRev` away from zero. -/
theorem natDigitsRev_ne (n : Nat) (h : n ≠ 0) :
    natDigitsRev n = Nat.digitChar (n % 10) :: natDigitsRev (n / 10) := by
  rw [natDigitsRev]
  simp [h]

/-- Every character `natDigitsRev` emits is a digit. -/
theorem natDigitsRev_all (n : Nat) : (natDigitsRev n).all pyDigit = true := by
  induction n using Nat.strong_induction_on with
  | _ n ih =>
      by_cases h : n = 0
      · subst h
        simp [natDigitsRev_zero]
      · rw [natDigitsRev_ne n h]
        simp [List.all_cons, pyDigit_digitChar (n % 10) (Nat.mod_lt n (by norm_num)),
          ih (n / 10) (Nat.div_lt_self (Nat.pos_of_ne_zero h) (by norm_num))]

/-- Folding the decimal-parse step over the emitted digits recovers the
number. -/
theorem foldl_natDigitsRev (n : Nat) : ∀ acc : Nat,
    List.foldl foldDigit acc (natDigitsRev n).reverse =
      acc * 10 ^ (natDigitsRev n).length + n := by
  induction n using Nat.strong_induction_on with
  | _ n ih =>
      intro acc
      by_cases h : n = 0
      · subst h
        simp [natDigitsRev_zero]
      · rw [natDigitsRev_ne n h, List.reverse_cons, List.foldl_append,
          ih (n / 10) (Nat.div_lt_self (Nat.pos_of_ne_zero h) (by norm_num)) acc]
        simp only [List.foldl_cons, List.foldl_nil, List.length_cons, foldDigit,
          digitVal_digitChar (n % 10) (Nat.mod_lt n (by norm_num))]
        rw [pow_succ, ← mul_assoc]
        have hdm := Nat.div_add_mod n 10
        omega

/-- `parseNat` unfolded on a nonempty list. -/
theorem parseNat_ne (l : List Char) (h : l ≠ []) :
    parseNat l = if l.all pyDigit then some (List.foldl foldDigit 0 l) else none := by
  cases l with
  | nil => exact absurd rfl h
  | cons c l2 => rfl

/-- Python `str(n)` parses back to `n`. -/
theorem parseNat_encNat (n : Nat) : parseNat ((encNat n).data) = some n := by
  by_cases h : n = 0
  · subst h
    rfl
  · have he : encNat n = String.mk (natDigitsRev n).reverse := by
      simp [encNat, h]
    rw [he]
    show parseNat ((natDigitsRev n).reverse) = some n
    have hnn : natDigitsRev n ≠ [] := by
      rw [natDigitsRev_ne n h]
      simp
    have hrev : (natDigitsRev n).reverse ≠ [] := by
      simp [hnn]
    rw [parseNat_ne _ hrev, if_pos (by rw [List.all_reverse]; exact natDigitsRev_all n),
      foldl_natDigitsRev n 0]
    simp

/-- A score cell round-trips exactly: absent stays absent (the empty
cell), a present value — zero included — comes back as itself. -/
theorem parseCell_encCell (o : Option Nat) : parseCell (encCell o) = o := by
  cases o with
  | none => rfl
  | some n => exact parseNat_encNat n

/-- An encoded row decodes to exactly the record it came from. -/
theorem decodeRecord_encodeRecord (r : EvalRecord) :
    decodeRecord (encodeRecord r) = some r := by
  show decodeRecord
      [r.timestamp, r.model, r.temperature, r.question, r.answer, r.judge_feedback,
        r.judge_prompt, encCell r.total_rating, r.validation_status,
        encCell r.relevance_score, encCell r.clarity_score,
        encCell r.consistency_score, encCell r.creativity_score] = some r
  simp [decodeRecord, parseCell_encCell]

/-- Appending records onto a headed table appends their encoded rows in
order. -/
theorem appendAll_some (rs : List EvalRecord) : ∀ rows : List (List String),
    appendAll rs (some (CSV_HEADER :: rows)) =
      some (CSV_HEADER :: (rows ++ rs.map encodeRecord)) := by
  induction rs with
  | nil => intro rows; simp [appendAll]
  | cons r rs2 ih =>
      intro rows
      show appendAll rs2 (some (log_evaluation r (some (CSV_HEADER :: rows)))) = _
      rw [show log_evaluation r (some (CSV_HEADER :: rows)) =
        CSV_HEADER :: (rows ++ [encodeRecord r]) from rfl]
      rw [ih (rows ++ [encodeRecord r])]
      simp

/-- C4: starting from no log file, appending N records and then reading
the history returns exactly N rows, in insertion order, each the encoded
record, and decoding each row recovers every field exactly — absent
scores come back absent (the empty cell is distinct from the numeral
`0`). -/
theorem log_roundtrip (rs : List EvalRecord) :
    (get_evaluation_history (appendAll rs none)).2.length = rs.length ∧
    (get_evaluation_history (appendAll rs none)).2 = rs.map encodeRecord ∧
    ((get_evaluation_history (appendAll rs none)).2).map decodeRecord = rs.map some ∧
    (get_evaluation_history (appendAll rs none)).1 = CSV_HEADER ∧
    encCell none = "" ∧ parseCell "" = none ∧ parseCell "0" = some 0 := by
  refine ⟨?_, ?_, ?_, ?_, rfl, rfl, rfl⟩ <;>
  · cases rs with
    | nil => simp [appendAll, get_evaluation_history]
    | cons r rs2 =>
        have h1 : appendAll (r :: rs2) none =
            some (CSV_HEADER :: ([encodeRecord r] ++ rs2.map encodeRecord)) := by
          show appendAll rs2 (some (log_evaluation r none)) = _
          rw [show log_evaluation r none = CSV_HEADER :: [encodeRecord r] from rfl]
          exact appendAll_some rs2 [encodeRecord r]
        rw [h1]
        simp [get_evaluation_history, decodeRecord_encodeRecord]
